import Mathlib

/-!
Verification of the connection-lifecycle and query-execution core of a
DuckDB-backed SQL editor (`app.py`).  The Python module is shallowly
embedded: its global mutable state (`_db_connection`, `DB_PATH`, scratch
files) becomes an explicit `DBState`, and every interaction with the
outside world (filesystem checks, `duckdb.connect`, statement execution,
file writes) is mediated by an `Env` oracle so that the control flow of
each source function can be reproduced exactly.  Python strings are
modelled as `List Char`.
-/

set_option autoImplicit false

abbrev PyStr := List Char

/-- Python `str.isspace` on the characters `str.strip` removes. -/
def pySpace (c : Char) : Bool :=
  c = ' ' || c = '\t' || c = '\n' || c = '\r' || c = '\x0b' || c = '\x0c'

/-- Python `s.lstrip()`. -/
def lstrip (l : PyStr) : PyStr := l.dropWhile pySpace

/-- Python `s.rstrip()`. -/
def rstrip (l : PyStr) : PyStr := (l.reverse.dropWhile pySpace).reverse

/-- Python `s.strip()`. -/
def pyStrip (l : PyStr) : PyStr := lstrip (rstrip l)

/-- Python `s.lower()`. -/
def pyLower (l : PyStr) : PyStr := l.map Char.toLower

/-- Python `s.startswith(pre)`. -/
def pyStartsWith (l pre : PyStr) : Bool := pre.isPrefixOf l

/-- Python `s.endswith(suf)`. -/
def pyEndsWith (l suf : PyStr) : Bool := suf.reverse.isPrefixOf l.reverse

/-- Python `s.find(c)` for a single character: index of first occurrence. -/
def pyFind (c : Char) : PyStr → Option Nat
  | [] => none
  | x :: t => if x = c then some 0 else (pyFind c t).map (· + 1)

/-- Python `needle in hay` (substring containment). -/
def pyContains : (hay needle : PyStr) → Bool
  | hay, needle =>
    if needle.isPrefixOf hay then true
    else
      match hay with
      | [] => false
      | _ :: t => pyContains t needle

/-- Python `s[:-n]` for `n ≤ len s`. -/
def pyDropRight (l : PyStr) (n : Nat) : PyStr := l.take (l.length - n)

/-- A live DuckDB connection handle: the resolved file path it is bound
to, plus a generation counter giving each `duckdb.connect` call a fresh
identity. -/
structure Handle where
  path : PyStr
  gen : Nat
deriving DecidableEq

/-- Outcome of running one statement on one handle
(`conn.execute(q).fetchall()` together with `conn.description`). -/
inductive ExecOutcome where
  /-- Success: `desc` is `conn.description` (`none` when the driver reports
  no result metadata), `rows` the fetched rows. -/
  | ok (desc : Option (List PyStr)) (rows : List (List PyStr))
  /-- The execution raised; `msg` is `str(e)`. -/
  | err (msg : PyStr)
deriving DecidableEq

/-- Oracle for every effect the module performs against the outside world. -/
structure Env where
  /-- Models `Path(p).resolve()`. -/
  resolve : PyStr → PyStr
  /-- `Path(p).exists()` after resolving. -/
  path_exists : PyStr → Bool
  /-- whether `duckdb.connect(p, read_only=True)` succeeds. -/
  connect_ok : PyStr → Bool
  /-- Text `str(e)` for a failing `duckdb.connect(p)`. -/
  connect_err : PyStr → PyStr
  /-- whether `SELECT 1` succeeds on a freshly opened handle to `p`. -/
  probe_ok : PyStr → Bool
  /-- Text `str(e)` for a failing `SELECT 1` probe at `p`. -/
  probe_err : PyStr → PyStr
  /-- result of executing a statement on a given handle. -/
  exec_result : Handle → PyStr → ExecOutcome
  /-- whether `open(p, 'wb')` succeeds (creating the file). -/
  open_ok : PyStr → Bool
  /-- whether the subsequent `f.write(...)` succeeds. -/
  write_ok : PyStr → Bool
  /-- Text `str(e)` for a failing read/write while persisting to `p`. -/
  write_err : PyStr → PyStr

/-- The module's global mutable state: `_db_connection`, `DB_PATH`, a
generation supply for fresh handles, and the scratch files currently on
disk (for the upload endpoint). -/
structure DBState where
  conn : Option Handle
  db_path : PyStr
  next_gen : Nat
  files : List PyStr
deriving DecidableEq

/-- Message `f"Database file not found: {db_path}"`. -/
def file_not_found_msg (p : PyStr) : PyStr :=
  "Database file not found: ".toList ++ p

/-- Result of `get_connection()`: the returned handle, or the exception it
(re-)raises. -/
inductive GetResult where
  | ok (h : Handle)
  | raised (msg : PyStr)
deriving DecidableEq

/-- Model of `get_connection()` (app.py lines 28-45): singleton access.  If a
connection exists it is returned unchanged; otherwise the configured path
is resolved, checked for existence (`FileNotFoundError` otherwise), and a
fresh read-only handle is opened and cached.  Any failure is re-raised. -/
def get_connection (env : Env) (s : DBState) : GetResult × DBState :=
  match s.conn with
  | some h => (.ok h, s)
  | none =>
      let rp := env.resolve s.db_path
      if env.path_exists rp then
        if env.connect_ok rp then
          let h : Handle := ⟨rp, s.next_gen⟩
          (.ok h, { s with conn := some h, next_gen := s.next_gen + 1 })
        else (.raised (env.connect_err rp), s)
      else (.raised (file_not_found_msg rp), s)

/-- Model of `reset_connection()` (app.py lines 110-136): close the current handle
if any (errors swallowed, reference cleared), reopen against the current
`DB_PATH`, run the `SELECT 1` probe, return `True`; on any failure clear
the reference and return `False`. -/
def reset_connection (env : Env) (s : DBState) : Bool × DBState :=
  let s1 : DBState := { s with conn := none }
  let rp := env.resolve s1.db_path
  if env.connect_ok rp then
    let h : Handle := ⟨rp, s1.next_gen⟩
    let s2 : DBState := { s1 with conn := some h, next_gen := s1.next_gen + 1 }
    if env.probe_ok rp then (true, s2)
    else (false, { s2 with conn := none })
  else (false, s1)

/-- Message `f"Failed to change database: {e}"`. -/
def change_fail_msg (e : PyStr) : PyStr :=
  "Failed to change database: ".toList ++ e

/-- Model of `reset_with_new_db(new_db_path)` (app.py lines 47-82): close the
current handle (errors swallowed, reference cleared), commit `DB_PATH` to
the new path, then validate existence, open, and probe; returns
`(True, None)` on success and `(False, msg)` on failure with the handle
reference cleared.  Note `DB_PATH` is updated before validation and not
reverted on failure. -/
def reset_with_new_db (env : Env) (s : DBState) (new_db_path : PyStr) :
    (Bool × Option PyStr) × DBState :=
  let s1 : DBState := { s with conn := none, db_path := new_db_path }
  let rp := env.resolve new_db_path
  if env.path_exists rp then
    if env.connect_ok rp then
      let h : Handle := ⟨rp, s1.next_gen⟩
      let s2 : DBState := { s1 with conn := some h, next_gen := s1.next_gen + 1 }
      if env.probe_ok rp then ((true, none), s2)
      else ((false, some (change_fail_msg (env.probe_err rp))),
            { s2 with conn := none })
    else ((false, some (change_fail_msg (env.connect_err rp))), s1)
  else ((false, some (change_fail_msg (file_not_found_msg rp))), s1)

/-- Result of `get_table_names()`: the list of names, or the exception
propagating out of the uncaught `get_connection()` call. -/
inductive NamesResult where
  | names (l : List PyStr)
  | raised (msg : PyStr)
deriving DecidableEq

/-- Model of `get_table_names()` (app.py lines 84-93): `get_connection()` outside
the `try` (its failure propagates), then `SHOW TABLES`; each row's first
column is collected; any execution failure is caught and `[]` returned. -/
def get_table_names (env : Env) (s : DBState) : NamesResult × DBState :=
  match get_connection env s with
  | (.raised m, s') => (.raised m, s')
  | (.ok h, s') =>
      match env.exec_result h "SHOW TABLES".toList with
      | .ok _ rows => (.names (rows.map (fun r => r.headD [])), s')
      | .err _ => (.names [], s')

/-- Result of `get_table_schema(t)`: the schema rows, or the exception
propagating out of the uncaught `get_connection()` call. -/
inductive SchemaResult where
  | schema (rows : List (List PyStr))
  | raised (msg : PyStr)
deriving DecidableEq

/-- Model of `get_table_schema(table_name)` (app.py lines 96-108): `get_connection()`
outside the `try` (its failure propagates), then `DESCRIBE {table_name}`;
any execution failure is caught and `[]` returned. -/
def get_table_schema (env : Env) (s : DBState) (table_name : PyStr) :
    SchemaResult × DBState :=
  match get_connection env s with
  | (.raised m, s') => (.raised m, s')
  | (.ok h, s') =>
      match env.exec_result h ("DESCRIBE ".toList ++ table_name) with
      | .ok _ rows => (.schema rows, s')
      | .err _ => (.schema [], s')

/-- The dictionary `execute_query` returns: `error` is `some` exactly when
the `"error"` key is present. -/
structure QueryResult where
  error : Option PyStr
  columns : List PyStr
  data : List (List PyStr)
deriving DecidableEq

/-- What comes out of `execute_query`: a returned dictionary, or the
exception escaping from the uncaught initial `get_connection()` call. -/
inductive QueryOutcome where
  | result (r : QueryResult)
  | raised (msg : PyStr)
deriving DecidableEq

/-- Execution trace of one `execute_query` call: its outcome, the final
state, and how many `reset_connection` calls / retry attempts happened. -/
structure ExecTrace where
  out : QueryOutcome
  state : DBState
  resets : Nat
  retries : Nat
deriving DecidableEq

/-- The connection-fault heuristic of app.py line 156:
`"connection" in str(e).lower() or "database" in str(e).lower()`. -/
def conn_fault (e : PyStr) : Bool :=
  pyContains (pyLower e) "connection".toList
    || pyContains (pyLower e) "database".toList

/-- Column names from `conn.description` (app.py lines 147-149):
`[]` when the description is `None`. -/
def desc_columns (desc : Option (List PyStr)) : List PyStr := desc.getD []

/-- Message `f"Query failed after connection reset: {retry_error}"`. -/
def retry_fail_msg (e : PyStr) : PyStr :=
  "Query failed after connection reset: ".toList ++ e

/-- Model of `execute_query(query)` (app.py lines 138-175).  `get_connection()` is
called before the `try`, so its failure raises.  On execution failure
matching `conn_fault`, one `reset_connection()`; if it succeeds, one retry
(re-acquiring the handle inside the retry's `try`), whose failure is
returned as `retry_fail_msg`; if the reset fails, the original error text
is returned.  Non-matching failures are returned as-is.  Success returns
columns from the description and all rows, with no error key. -/
def execute_query (env : Env) (s : DBState) (query : PyStr) : ExecTrace :=
  match get_connection env s with
  | (.raised m, s') => ⟨.raised m, s', 0, 0⟩
  | (.ok h, s') =>
      match env.exec_result h query with
      | .ok desc rows => ⟨.result ⟨none, desc_columns desc, rows⟩, s', 0, 0⟩
      | .err e =>
          if conn_fault e then
            match reset_connection env s' with
            | (true, s2) =>
                match get_connection env s2 with
                | (.raised m, s3) =>
                    ⟨.result ⟨some (retry_fail_msg m), [], []⟩, s3, 1, 1⟩
                | (.ok h2, s3) =>
                    match env.exec_result h2 query with
                    | .ok desc rows =>
                        ⟨.result ⟨none, desc_columns desc, rows⟩, s3, 1, 1⟩
                    | .err e2 =>
                        ⟨.result ⟨some (retry_fail_msg e2), [], []⟩, s3, 1, 1⟩
            | (false, s2) => ⟨.result ⟨some e, [], []⟩, s2, 1, 0⟩
          else ⟨.result ⟨some e, [], []⟩, s', 0, 0⟩

/-- The JSON-ish dictionary returned by the `/change-database` endpoint. -/
structure EndpointResult where
  success : Bool
  message : PyStr
deriving DecidableEq

/-- Scratch location `temp_dir / file.filename` for an upload. -/
def temp_db_path (filename : PyStr) : PyStr := "temp_db/".toList ++ filename

/-- Model of `change_database_endpoint` (app.py lines 2627-2666), for a request
carrying `db_file` with filename `filename` (`none` when the field is
absent).  Extension is validated before persisting; `open(..., 'wb')`
creates the scratch file, and a read/write failure afterwards is caught by
the outer handler without removing it; a `reset_with_new_db` failure
unlinks the scratch file. -/
def change_database_endpoint (env : Env) (s : DBState)
    (upload : Option PyStr) : EndpointResult × DBState :=
  match upload with
  | none => (⟨false, "No file uploaded".toList⟩, s)
  | some filename =>
      if filename = [] then (⟨false, "No file selected".toList⟩, s)
      else if !(pyEndsWith filename ".duckdb".toList
                || pyEndsWith filename ".db".toList) then
        (⟨false,
          "Invalid file type. Please upload a .duckdb or .db file".toList⟩, s)
      else
        let fp := temp_db_path filename
        if env.open_ok fp then
          let s1 : DBState := { s with files := fp :: s.files }
          if env.write_ok fp then
            match reset_with_new_db env s1 fp with
            | ((true, _), s2) =>
                (⟨true, "Successfully connected to ".toList ++ filename⟩, s2)
            | ((false, err), s2) =>
                (⟨false, "Failed to connect: ".toList ++ err.getD []⟩,
                 { s2 with files := s2.files.erase fp })
          else
            (⟨false, "An error occurred: ".toList ++ env.write_err fp⟩, s1)
        else
          (⟨false, "An error occurred: ".toList ++ env.write_err fp⟩, s)

/-- The three-character code-fence delimiter (three backticks). -/
def fence_marker : PyStr := ['\x60', '\x60', '\x60']

/-- The fence-stripping post-processing of the translator output
(app.py lines 2823-2841): `content.strip()`, removal of an opening fence
line (or bare opening fence when it has no line break), removal of a
closing fence, and a final `strip()`. -/
def strip_code_fences (content : PyStr) : PyStr :=
  let q0 := pyStrip content
  let q1 :=
    if pyStartsWith q0 fence_marker then
      match pyFind '\n' q0 with
      | some i => q0.drop (i + 1)
      | none => q0.drop 3
    else q0
  let q2 := if pyEndsWith q1 fence_marker then pyDropRight q1 3 else q1
  pyStrip q2

/-- The wrapping P5 speaks about: translator output fenced by triple
backticks with an optional language tag on the opening line. -/
def wrap_fenced (tag s : PyStr) : PyStr :=
  fence_marker ++ tag ++ '\n' :: s ++ '\n' :: fence_marker

/-- Replace only the liveness-probe behaviour of a world, leaving the
filesystem and the engine untouched. -/
def set_probe (env : Env) (p : PyStr → Bool) : Env := { env with probe_ok := p }

/-! Concrete environments and states used to instantiate the theorems. -/

/-- A benign world: every path resolves to itself and exists, connecting
and probing succeed, statements succeed with no rows, file writes work. -/
def env_base : Env where
  resolve := id
  path_exists := fun _ => true
  connect_ok := fun _ => true
  connect_err := fun _ => "connect refused".toList
  probe_ok := fun _ => true
  probe_err := fun _ => "probe refused".toList
  exec_result := fun _ _ => .ok none []
  open_ok := fun _ => true
  write_ok := fun _ => true
  write_err := fun _ => "disk full".toList

/-- A world in which no path exists on disk. -/
def env_missing : Env := { env_base with path_exists := fun _ => false }

/-- A world in which every statement execution fails on every handle. -/
def env_broken : Env :=
  { env_base with exec_result := fun _ _ => .err "broken handle".toList }

/-- A world in which handles open fine but the `SELECT 1` probe fails. -/
def env_noprobe : Env := { env_base with probe_ok := fun _ => false }

/-- A world in which statements on generation-0 handles fail with a
connection-flavoured error, while later (reopened) handles succeed. -/
def env_retry : Env :=
  { env_base with
    exec_result := fun h _ =>
      if h.gen = 0 then .err "connection lost".toList
      else .ok (some ["a".toList]) [["1".toList]] }

/-- A world in which statements fail with a plain SQL syntax error. -/
def env_syntax_err : Env :=
  { env_base with exec_result := fun _ _ => .err "Parser Error: typo".toList }

/-- A world in which statements succeed with two columns and zero rows. -/
def env_empty_rows : Env :=
  { env_base with
    exec_result := fun _ _ => .ok (some ["a".toList, "b".toList]) [] }

/-- A world in which the scratch file can be created but writing to it
fails. -/
def env_nowrite : Env := { env_base with write_ok := fun _ => false }

/-- Fresh start: no connection yet, configured path `old.db`. -/
def state0 : DBState where
  conn := none
  db_path := "old.db".toList
  next_gen := 0
  files := []

/-- The handle the first successful `get_connection` opens from `state0`. -/
def handle0 : Handle := ⟨"old.db".toList, 0⟩

/-- The state after a successful first open from `state0`. -/
def state_open : DBState where
  conn := some handle0
  db_path := "old.db".toList
  next_gen := 1
  files := []

/-! ## Theorems -/

/-- C5 (singleton): whenever `get_connection` succeeds, the returned handle
is the one cached in the resulting state — the only handle the manager
holds — and every further `get_connection` call with no intervening
reset/swap returns that very handle with the state unchanged (no
reopening: the generation supply does not move). -/
theorem get_connection_singleton (env : Env) (s s' : DBState) (h : Handle)
    (hget : get_connection env s = (GetResult.ok h, s')) :
    s'.conn = some h ∧ get_connection env s' = (GetResult.ok h, s') := by
  cases hc : s.conn with
  | some h0 =>
      simp only [get_connection, hc] at hget
      obtain ⟨rfl, rfl⟩ : h0 = h ∧ s = s' := by
        simpa using hget
      exact ⟨hc, by simp only [get_connection, hc]⟩
  | none =>
      simp only [get_connection, hc] at hget
      by_cases hp : env.path_exists (env.resolve s.db_path)
      · by_cases hco : env.connect_ok (env.resolve s.db_path)
        · simp only [hp, hco, if_true] at hget
          have h1 : (⟨env.resolve s.db_path, s.next_gen⟩ : Handle) = h :=
            GetResult.ok.inj (Prod.mk.inj hget).1
          have h2 := (Prod.mk.inj hget).2
          subst h1
          subst h2
          exact ⟨rfl, rfl⟩
        · simp [hp, hco] at hget
      · simp [hp] at hget

/-- C5 witness: instantiated in the benign world at the fresh state. -/
theorem get_connection_singleton_witness :
    state_open.conn = some handle0 ∧
    get_connection env_base state_open = (GetResult.ok handle0, state_open) :=
  get_connection_singleton env_base state0 state_open handle0 (by decide)

/-- C6: `reset_connection`, from any state, discards the current handle and
reports an explicit boolean.  It returns `true` exactly when reopening the
currently configured path and the `SELECT 1` probe both succeed, in which
case the manager holds precisely the freshly opened handle; on any failure
the handle reference is `None`.  The configured path is never changed. -/
theorem reset_connection_spec (env : Env) (s : DBState) :
    ((reset_connection env s).1 = true ↔
        env.connect_ok (env.resolve s.db_path) = true ∧
        env.probe_ok (env.resolve s.db_path) = true) ∧
    ((reset_connection env s).1 = true →
        (reset_connection env s).2.conn
          = some ⟨env.resolve s.db_path, s.next_gen⟩) ∧
    ((reset_connection env s).1 = false →
        (reset_connection env s).2.conn = none) ∧
    (reset_connection env s).2.db_path = s.db_path := by
  by_cases hco : env.connect_ok (env.resolve s.db_path)
  · by_cases hpr : env.probe_ok (env.resolve s.db_path) <;>
      simp [reset_connection, hco, hpr]
  · simp [reset_connection, hco]

/-- C6 witness: in the benign world the reset succeeds and installs the
fresh generation-1 handle. -/
theorem reset_connection_spec_witness :
    (reset_connection env_base state_open).2.conn
      = some ⟨"old.db".toList, 1⟩ :=
  ((reset_connection_spec env_base state_open).2.1) (by decide)

/-- C1 counterexample: the claim says a failing `reset_with_new_db` does
NOT commit the configured path to the new path.  In the world where the
uploaded path does not exist, the swap from `state_open` (serving
`old.db`) reports failure, yet the configured path ends up at
`missing.db`: `DB_PATH` is assigned before validation and never
reverted. -/
theorem swap_failure_commits_path_cex :
    (reset_with_new_db env_missing state_open "missing.db".toList).1.1
      = false ∧
    (reset_with_new_db env_missing state_open "missing.db".toList).2.db_path
      = "missing.db".toList ∧
    state_open.db_path ≠ "missing.db".toList := by
  refine ⟨by decide, by decide, by decide⟩

/-- C1 amended: whenever `reset_with_new_db` fails — at close, path
validation, open, or the liveness probe — the manager ends with no handle
(so it never silently keeps serving the old file) and an explicit error
message is returned rather than an exception; however the configured path
IS committed to the new path even on failure. -/
theorem swap_failure_no_handle_amended (env : Env) (s : DBState)
    (new_db_path : PyStr)
    (hfail : (reset_with_new_db env s new_db_path).1.1 = false) :
    (reset_with_new_db env s new_db_path).2.conn = none ∧
    ((reset_with_new_db env s new_db_path).1.2).isSome = true ∧
    (reset_with_new_db env s new_db_path).2.db_path = new_db_path := by
  by_cases hp : env.path_exists (env.resolve new_db_path)
  · by_cases hco : env.connect_ok (env.resolve new_db_path)
    · by_cases hpr : env.probe_ok (env.resolve new_db_path)
      · simp [reset_with_new_db, hp, hco, hpr] at hfail
      · simp [reset_with_new_db, hp, hco, hpr]
    · simp [reset_with_new_db, hp, hco]
  · simp [reset_with_new_db, hp]

/-- Branch lemma: a failure outside the heuristic is returned as-is with
no reset and no retry. -/
theorem execute_query_eq_no_fault (env : Env) (s s' : DBState)
    (query : PyStr) (h : Handle) (e : PyStr)
    (hget : get_connection env s = (GetResult.ok h, s'))
    (hexec : env.exec_result h query = ExecOutcome.err e)
    (hcf : conn_fault e = false) :
    execute_query env s query
      = ⟨QueryOutcome.result ⟨some e, [], []⟩, s', 0, 0⟩ := by
  simp [execute_query, hget, hexec, hcf]

/-- Branch lemma: a heuristic-matching failure whose reset fails returns
the original error after one reset and no retry. -/
theorem execute_query_eq_reset_failed (env : Env) (s s' s2 : DBState)
    (query : PyStr) (h : Handle) (e : PyStr)
    (hget : get_connection env s = (GetResult.ok h, s'))
    (hexec : env.exec_result h query = ExecOutcome.err e)
    (hcf : conn_fault e = true)
    (hrc : reset_connection env s' = (false, s2)) :
    execute_query env s query
      = ⟨QueryOutcome.result ⟨some e, [], []⟩, s2, 1, 0⟩ := by
  simp [execute_query, hget, hexec, hcf, hrc]

/-- Branch lemma: one reset, one retry, retry fails. -/
theorem execute_query_eq_retry_err (env : Env) (s s' s2 s3 : DBState)
    (query : PyStr) (h h2 : Handle) (e e2 : PyStr)
    (hget : get_connection env s = (GetResult.ok h, s'))
    (hexec : env.exec_result h query = ExecOutcome.err e)
    (hcf : conn_fault e = true)
    (hrc : reset_connection env s' = (true, s2))
    (hg2 : get_connection env s2 = (GetResult.ok h2, s3))
    (he2 : env.exec_result h2 query = ExecOutcome.err e2) :
    execute_query env s query
      = ⟨QueryOutcome.result ⟨some (retry_fail_msg e2), [], []⟩, s3, 1, 1⟩ := by
  simp [execute_query, hget, hexec, hcf, hrc, hg2, he2]

/-- Branch lemma: one reset, one retry, retry succeeds. -/
theorem execute_query_eq_retry_ok (env : Env) (s s' s2 s3 : DBState)
    (query : PyStr) (h h2 : Handle) (e : PyStr)
    (desc : Option (List PyStr)) (rows : List (List PyStr))
    (hget : get_connection env s = (GetResult.ok h, s'))
    (hexec : env.exec_result h query = ExecOutcome.err e)
    (hcf : conn_fault e = true)
    (hrc : reset_connection env s' = (true, s2))
    (hg2 : get_connection env s2 = (GetResult.ok h2, s3))
    (he2 : env.exec_result h2 query = ExecOutcome.ok desc rows) :
    execute_query env s query
      = ⟨QueryOutcome.result ⟨none, desc_columns desc, rows⟩, s3, 1, 1⟩ := by
  simp [execute_query, hget, hexec, hcf, hrc, hg2, he2]

/-- Branch lemma: one reset, retry's handle re-acquisition raises inside
the retry's `try`, so the exception is caught and returned as an error. -/
theorem execute_query_eq_retry_raised (env : Env) (s s' s2 s3 : DBState)
    (query : PyStr) (h : Handle) (e m : PyStr)
    (hget : get_connection env s = (GetResult.ok h, s'))
    (hexec : env.exec_result h query = ExecOutcome.err e)
    (hcf : conn_fault e = true)
    (hrc : reset_connection env s' = (true, s2))
    (hg2 : get_connection env s2 = (GetResult.raised m, s3)) :
    execute_query env s query
      = ⟨QueryOutcome.result ⟨some (retry_fail_msg m), [], []⟩, s3, 1, 1⟩ := by
  simp [execute_query, hget, hexec, hcf, hrc, hg2]

/-- Branch lemma: a first-try success is shaped from the description and
rows, with no error key and no reset. -/
theorem execute_query_eq_success (env : Env) (s s' : DBState)
    (query : PyStr) (h : Handle)
    (desc : Option (List PyStr)) (rows : List (List PyStr))
    (hget : get_connection env s = (GetResult.ok h, s'))
    (hexec : env.exec_result h query = ExecOutcome.ok desc rows) :
    execute_query env s query
      = ⟨QueryOutcome.result ⟨none, desc_columns desc, rows⟩, s', 0, 0⟩ := by
  simp [execute_query, hget, hexec]

/-- Branch lemma: the initial `get_connection()` sits before the `try`, so
its failure escapes `execute_query` as an exception. -/
theorem execute_query_eq_raised (env : Env) (s s' : DBState)
    (query : PyStr) (m : PyStr)
    (hget : get_connection env s = (GetResult.raised m, s')) :
    execute_query env s query = ⟨QueryOutcome.raised m, s', 0, 0⟩ := by
  simp [execute_query, hget]

/-- C2 (bounded retry): when the first execution of a query fails, the
number of resets is 1 if the error text matches the connection heuristic
and 0 otherwise, and at most one retry ever happens.  A non-matching
error is returned as-is; a matching error whose reset fails is returned
with no retry; a matching error whose reset succeeds is retried exactly
once, a second failure being returned as the final error. -/
theorem execute_query_bounded_retry (env : Env) (s s' : DBState)
    (query : PyStr) (h : Handle) (e : PyStr)
    (hget : get_connection env s = (GetResult.ok h, s'))
    (hexec : env.exec_result h query = ExecOutcome.err e) :
    ((execute_query env s query).resets = if conn_fault e then 1 else 0) ∧
    (execute_query env s query).retries ≤ 1 ∧
    (conn_fault e = false →
        (execute_query env s query).out
          = QueryOutcome.result ⟨some e, [], []⟩) ∧
    (conn_fault e = true → (reset_connection env s').1 = false →
        (execute_query env s query).retries = 0 ∧
        (execute_query env s query).out
          = QueryOutcome.result ⟨some e, [], []⟩) ∧
    (conn_fault e = true → (reset_connection env s').1 = true →
        (execute_query env s query).retries = 1 ∧
        ∀ h2 s3 e2,
          get_connection env (reset_connection env s').2
              = (GetResult.ok h2, s3) →
          env.exec_result h2 query = ExecOutcome.err e2 →
          (execute_query env s query).out
            = QueryOutcome.result ⟨some (retry_fail_msg e2), [], []⟩) := by
  cases hcf : conn_fault e with
  | false =>
      rw [execute_query_eq_no_fault env s s' query h e hget hexec hcf]
      refine ⟨by simp, by simp, fun _ => rfl, ?_, ?_⟩
      · intro hc _; exact Bool.noConfusion hc
      · intro hc _; exact Bool.noConfusion hc
  | true =>
      rcases hrc : reset_connection env s' with ⟨ok2, s2⟩
      cases ok2 with
      | false =>
          rw [execute_query_eq_reset_failed env s s' s2 query h e hget hexec
                hcf hrc]
          refine ⟨by simp, by simp, ?_, ?_, ?_⟩
          · intro hc; exact Bool.noConfusion hc
          · intro _ _; exact ⟨rfl, rfl⟩
          · intro _ ht; simp at ht
      | true =>
          have hkey : (execute_query env s query).resets = 1 ∧
              (execute_query env s query).retries = 1 := by
            rcases hg2 : get_connection env s2 with ⟨r2, s3⟩
            cases r2 with
            | ok h2 =>
                cases he2 : env.exec_result h2 query with
                | ok desc rows =>
                    rw [execute_query_eq_retry_ok env s s' s2 s3 query h h2 e
                          desc rows hget hexec hcf hrc hg2 he2]
                    exact ⟨rfl, rfl⟩
                | err e2 =>
                    rw [execute_query_eq_retry_err env s s' s2 s3 query h h2 e
                          e2 hget hexec hcf hrc hg2 he2]
                    exact ⟨rfl, rfl⟩
            | raised m =>
                rw [execute_query_eq_retry_raised env s s' s2 s3 query h e m
                      hget hexec hcf hrc hg2]
                exact ⟨rfl, rfl⟩
          refine ⟨by simp [hkey.1], by simp [hkey.2], ?_, ?_, ?_⟩
          · intro hc; exact Bool.noConfusion hc
          · intro _ hf; simp at hf
          · intro _ _
            refine ⟨hkey.2, ?_⟩
            intro h2 s3 e2 hg2 he2
            rw [execute_query_eq_retry_err env s s' s2 s3 query h h2 e e2 hget
                  hexec hcf hrc hg2 he2]

/-- C2 witness: in the retry world a query failing with `connection lost`
triggers exactly one reset and one retry. -/
theorem execute_query_bounded_retry_witness :
    (execute_query env_retry state_open "SELECT 1".toList).resets = 1 ∧
    (execute_query env_retry state_open "SELECT 1".toList).retries ≤ 1 := by
  have big := execute_query_bounded_retry env_retry state_open state_open
      "SELECT 1".toList handle0 "connection lost".toList (by decide)
      (by decide)
  exact ⟨by rw [big.1]; decide, big.2.1⟩

/-- C3 counterexample: when the configured file is missing, `execute_query`
does not return a populated `error` field — the `FileNotFoundError` from
the `get_connection()` call placed before the `try` escapes as an
exception. -/
theorem execute_query_get_failure_raises_cex :
    (execute_query env_missing state0 "SELECT 1".toList).out
      = QueryOutcome.raised (file_not_found_msg "old.db".toList) := by
  decide

/-- C3 amended: a connection-acquisition failure escapes `execute_query`
as an exception (handled only by the HTTP route); every failure after a
handle has been obtained is returned as a `QueryResult` dictionary. -/
theorem execute_query_error_propagation_amended (env : Env) (s : DBState)
    (query : PyStr) :
    (∀ m s', get_connection env s = (GetResult.raised m, s') →
        (execute_query env s query).out = QueryOutcome.raised m) ∧
    (∀ h s', get_connection env s = (GetResult.ok h, s') →
        ∃ r, (execute_query env s query).out = QueryOutcome.result r) := by
  constructor
  · intro m s' hget
    rw [execute_query_eq_raised env s s' query m hget]
  · intro h s' hget
    cases he : env.exec_result h query with
    | ok desc rows =>
        exact ⟨_, by
          rw [execute_query_eq_success env s s' query h desc rows hget he]⟩
    | err e =>
        cases hcf : conn_fault e with
        | false =>
            exact ⟨_, by
              rw [execute_query_eq_no_fault env s s' query h e hget he hcf]⟩
        | true =>
            rcases hrc : reset_connection env s' with ⟨ok2, s2⟩
            cases ok2 with
            | false =>
                exact ⟨_, by
                  rw [execute_query_eq_reset_failed env s s' s2 query h e hget
                        he hcf hrc]⟩
            | true =>
                rcases hg2 : get_connection env s2 with ⟨r2, s3⟩
                cases r2 with
                | ok h2 =>
                    cases he2 : env.exec_result h2 query with
                    | ok desc rows =>
                        exact ⟨_, by
                          rw [execute_query_eq_retry_ok env s s' s2 s3 query h
                                h2 e desc rows hget he hcf hrc hg2 he2]⟩
                    | err e2 =>
                        exact ⟨_, by
                          rw [execute_query_eq_retry_err env s s' s2 s3 query h
                                h2 e e2 hget he hcf hrc hg2 he2]⟩
                | raised m =>
                    exact ⟨_, by
                      rw [execute_query_eq_retry_raised env s s' s2 s3 query h
                            e m hget he hcf hrc hg2]⟩

/-- C9 (result shaping): a statement that succeeds with zero rows yields a
result whose columns come from the statement metadata (empty if the
driver reports none), whose data is empty, and whose error field is
unset. -/
theorem execute_query_zero_rows_shape (env : Env) (s s' : DBState)
    (query : PyStr) (h : Handle) (desc : Option (List PyStr))
    (hget : get_connection env s = (GetResult.ok h, s'))
    (hexec : env.exec_result h query = ExecOutcome.ok desc []) :
    (execute_query env s query).out
      = QueryOutcome.result ⟨none, desc_columns desc, []⟩ := by
  rw [execute_query_eq_success env s s' query h desc [] hget hexec]

/-- C9 witness: a two-column, zero-row statement in the benign world. -/
theorem execute_query_zero_rows_shape_witness :
    (execute_query env_empty_rows state_open "SELECT 1".toList).out
      = QueryOutcome.result ⟨none, ["a".toList, "b".toList], []⟩ :=
  execute_query_zero_rows_shape env_empty_rows state_open state_open
    "SELECT 1".toList handle0 (some ["a".toList, "b".toList]) (by decide)
    (by decide)

/-- C1 witness: the amended statement instantiated at the failing swap of
the counterexample. -/
theorem swap_failure_no_handle_amended_witness :
    (reset_with_new_db env_missing state_open "missing.db".toList).2.conn
      = none ∧
    ((reset_with_new_db env_missing state_open "missing.db".toList).1.2).isSome
      = true ∧
    (reset_with_new_db env_missing state_open "missing.db".toList).2.db_path
      = "missing.db".toList :=
  swap_failure_no_handle_amended env_missing state_open "missing.db".toList
    (by decide)

/-- C4 counterexample: with a broken handle (every statement raises), the
introspection helpers do not fail — they return empty lists,
indistinguishable from an empty database. -/
theorem introspection_silent_empty_cex :
    (get_table_names env_broken state_open).1 = NamesResult.names [] ∧
    (get_table_schema env_broken state_open "t".toList).1
      = SchemaResult.schema [] := by
  exact ⟨by decide, by decide⟩

/-- C4 amended: when the held connection is broken (statement execution on
it fails), `get_table_names` and `get_table_schema` swallow the error and
silently return an empty list; only a connection-acquisition failure is
reported, by escaping as an exception. -/
theorem introspection_empty_on_error_amended (env : Env) (s s' : DBState)
    (h : Handle) (t e1 e2 : PyStr)
    (hget : get_connection env s = (GetResult.ok h, s'))
    (h1 : env.exec_result h "SHOW TABLES".toList = ExecOutcome.err e1)
    (h2 : env.exec_result h ("DESCRIBE ".toList ++ t) = ExecOutcome.err e2) :
    get_table_names env s = (NamesResult.names [], s') ∧
    get_table_schema env s t = (SchemaResult.schema [], s') := by
  constructor
  · simp only [get_table_names, hget, h1]
  · simp only [get_table_schema, hget, h2]

/-- C4 witness: the amended statement in the broken world. -/
theorem introspection_empty_on_error_amended_witness :
    get_table_names env_broken state_open
      = (NamesResult.names [], state_open) ∧
    get_table_schema env_broken state_open "t".toList
      = (SchemaResult.schema [], state_open) :=
  introspection_empty_on_error_amended env_broken state_open state_open
    handle0 "t".toList "broken handle".toList "broken handle".toList
    (by decide) (by decide) (by decide)

/-- A database swap never touches the scratch-file inventory. -/
theorem reset_with_new_db_files (env : Env) (s : DBState) (p : PyStr) :
    (reset_with_new_db env s p).2.files = s.files := by
  by_cases hp : env.path_exists (env.resolve p)
  · by_cases hco : env.connect_ok (env.resolve p)
    · by_cases hpr : env.probe_ok (env.resolve p) <;>
        simp [reset_with_new_db, hp, hco, hpr]
    · simp [reset_with_new_db, hp, hco]
  · simp [reset_with_new_db, hp]

/-- C8 counterexample: an upload with a valid extension whose write to the
scratch location fails reports failure but leaves the partially created
scratch file on disk — the artifact is not removed on this failure. -/
theorem upload_write_failure_leaks_cex :
    (change_database_endpoint env_nowrite state0
        (some "u.db".toList)).1.success = false ∧
    (change_database_endpoint env_nowrite state0
        (some "u.db".toList)).2.files = [temp_db_path "u.db".toList] := by
  exact ⟨by decide, by decide⟩

/-- C8 amended: a file whose name has an invalid extension is rejected
before anything touches the disk; an upload that persists but fails
validation (`reset_with_new_db` fails) is removed; but an I/O failure
while persisting leaves the partially written scratch file behind. -/
theorem upload_cleanup_amended (env : Env) (s : DBState) (filename : PyStr)
    (hne : filename ≠ []) :
    ((pyEndsWith filename ".duckdb".toList
        || pyEndsWith filename ".db".toList) = false →
      change_database_endpoint env s (some filename)
        = (⟨false,
            "Invalid file type. Please upload a .duckdb or .db file".toList⟩,
           s)) ∧
    ((pyEndsWith filename ".duckdb".toList
        || pyEndsWith filename ".db".toList) = true →
      env.open_ok (temp_db_path filename) = true →
      env.write_ok (temp_db_path filename) = true →
      (reset_with_new_db env
          { s with files := temp_db_path filename :: s.files }
          (temp_db_path filename)).1.1 = false →
      (change_database_endpoint env s (some filename)).1.success = false ∧
      (change_database_endpoint env s (some filename)).2.files = s.files) ∧
    ((pyEndsWith filename ".duckdb".toList
        || pyEndsWith filename ".db".toList) = true →
      env.open_ok (temp_db_path filename) = true →
      env.write_ok (temp_db_path filename) = false →
      (change_database_endpoint env s (some filename)).1.success = false ∧
      (change_database_endpoint env s (some filename)).2.files
        = temp_db_path filename :: s.files) := by
  refine ⟨?_, ?_, ?_⟩
  · intro hbad
    simp only [change_database_endpoint]
    rw [if_neg hne, hbad]
    simp only [Bool.not_false]
    rw [if_pos trivial]
  · intro hgood hopen hwrite hswap
    rcases hr : reset_with_new_db env
        { s with files := temp_db_path filename :: s.files }
        (temp_db_path filename) with ⟨⟨ok, err⟩, s2⟩
    have hok : ok = false := by rw [hr] at hswap; exact hswap
    subst hok
    have hfiles : s2.files = temp_db_path filename :: s.files := by
      have hpres := reset_with_new_db_files env
        { s with files := temp_db_path filename :: s.files }
        (temp_db_path filename)
      rw [hr] at hpres
      exact hpres
    simp only [change_database_endpoint]
    rw [if_neg hne, hgood]
    simp only [Bool.not_true]
    rw [if_neg Bool.false_ne_true, hopen]
    rw [if_pos rfl, hwrite, if_pos rfl]
    simp only [hr]
    refine ⟨trivial, ?_⟩
    simp only [hfiles]
    exact List.erase_cons_head _ _
  · intro hgood hopen hwrite
    simp only [change_database_endpoint]
    rw [if_neg hne, hgood]
    simp only [Bool.not_true]
    rw [if_neg Bool.false_ne_true, hopen, if_pos rfl, hwrite]
    rw [if_neg Bool.false_ne_true]
    exact ⟨rfl, rfl⟩

/-- C8 witness: the amended statement at the failing write of the
counterexample. -/
theorem upload_cleanup_amended_witness :
    (change_database_endpoint env_nowrite state0
        (some "u.db".toList)).1.success = false ∧
    (change_database_endpoint env_nowrite state0
        (some "u.db".toList)).2.files
      = temp_db_path "u.db".toList :: state0.files :=
  ((upload_cleanup_amended env_nowrite state0 "u.db".toList
      (by decide)).2.2) (by decide) (by decide) (by decide)

/-- C10 (implicit): the first-access open performed by `get_connection` is
insensitive to the liveness probe — its outcome is unchanged under any
reinterpretation of the probe — and in a world where every handle opens
but cannot execute statements, `get_connection` succeeds while both
`reset_connection` and `reset_with_new_db` detect the fault and fail. -/
theorem first_open_no_probe (env : Env) (p : PyStr → Bool) (s : DBState) :
    get_connection (set_probe env p) s = get_connection env s ∧
    (get_connection env_noprobe state0).1 = GetResult.ok handle0 ∧
    (reset_connection env_noprobe state0).1 = false ∧
    (reset_with_new_db env_noprobe state0 "new.db".toList).1.1 = false := by
  refine ⟨?_, by decide, by decide, by decide⟩
  cases hc : s.conn with
  | some h => simp [get_connection, set_probe, hc]
  | none => simp [get_connection, set_probe, hc]

/-- The backtick character is not Python whitespace. -/
theorem pySpace_tick : pySpace '\x60' = false := by decide

/-- Newline is Python whitespace. -/
theorem pySpace_nl : pySpace '\n' = true := by decide

/-- Stripping leading whitespace leaves a fence-led text unchanged. -/
theorem lstrip_fence (r : PyStr) :
    lstrip (fence_marker ++ r) = fence_marker ++ r := by
  simp [lstrip, fence_marker, List.dropWhile_cons, pySpace_tick]

/-- Stripping trailing whitespace leaves a fence-terminated text
unchanged. -/
theorem rstrip_fence (l : PyStr) :
    rstrip (l ++ '\n' :: fence_marker) = l ++ '\n' :: fence_marker := by
  simp [rstrip, fence_marker, List.reverse_append, List.dropWhile_cons,
        pySpace_tick]

/-- A fence-led text starts with the fence marker. -/
theorem pyStartsWith_fence (r : PyStr) :
    pyStartsWith (fence_marker ++ r) fence_marker = true := by
  simp [pyStartsWith, fence_marker, List.isPrefixOf]

/-- A fence-terminated text ends with the fence marker. -/
theorem pyEndsWith_fence (l : PyStr) :
    pyEndsWith (l ++ '\n' :: fence_marker) fence_marker = true := by
  simp [pyEndsWith, fence_marker, List.reverse_append, List.isPrefixOf]

/-- Finding a character that does not occur in the text before its first
planted occurrence returns that position. -/
theorem pyFind_marker (pre rest : PyStr) (c : Char) (hc : c ∉ pre) :
    pyFind c (pre ++ c :: rest) = some pre.length := by
  induction pre with
  | nil => simp [pyFind]
  | cons x t ih =>
      have hx : ¬ x = c := fun hcontra => hc (by simp [hcontra])
      have ht : c ∉ t := fun hmem => hc (List.mem_cons_of_mem _ hmem)
      simp [pyFind, hx, ih ht]

/-- Dropping through a planted marker leaves exactly the tail. -/
theorem drop_after_marker (pre rest : PyStr) (c : Char) :
    (pre ++ c :: rest).drop (pre.length + 1) = rest := by
  have h1 : pre ++ c :: rest = (pre ++ [c]) ++ rest := by simp
  have h2 : pre.length + 1 = (pre ++ [c]).length := by simp
  rw [h1, h2, List.drop_left]

/-- Removing the last three characters of a fence-terminated text removes
exactly the closing fence. -/
theorem pyDropRight_fence (l : PyStr) :
    pyDropRight (l ++ '\n' :: fence_marker) 3 = l ++ ['\n'] := by
  have h1 : l ++ '\n' :: fence_marker = (l ++ ['\n']) ++ fence_marker := by
    simp
  have h2 : ((l ++ ['\n']) ++ fence_marker).length - 3
      = (l ++ ['\n']).length := by
    simp [fence_marker]
  rw [h1, pyDropRight, h2, List.take_left]

/-- A trailing newline is removed by `strip()`. -/
theorem pyStrip_newline (l : PyStr) : pyStrip (l ++ ['\n']) = pyStrip l := by
  simp [pyStrip, rstrip, List.reverse_append, List.dropWhile_cons, pySpace_nl]

/-- C7 (round-trip of code-fence stripping): wrapping any SQL text having
no leading/trailing whitespace in triple-backtick fences — with any
newline-free language tag, including the empty one — and running the
translator's stripping code yields exactly the inner SQL back. -/
theorem strip_code_fences_roundtrip (tag s : PyStr)
    (htag : '\n' ∉ tag) (hs : pyStrip s = s) :
    strip_code_fences (wrap_fenced tag s) = s := by
  have hassoc : wrap_fenced tag s
      = (fence_marker ++ tag) ++ '\n' :: (s ++ '\n' :: fence_marker) := by
    simp [wrap_fenced]
  have hassoc2 : wrap_fenced tag s
      = ((fence_marker ++ tag) ++ '\n' :: s) ++ '\n' :: fence_marker := by
    simp [wrap_fenced]
  have hassoc3 : wrap_fenced tag s
      = fence_marker ++ (tag ++ ('\n' :: s ++ '\n' :: fence_marker)) := by
    simp [wrap_fenced]
  have h0 : pyStrip (wrap_fenced tag s) = wrap_fenced tag s := by
    rw [pyStrip]
    rw [hassoc2, rstrip_fence, ← hassoc2, hassoc3, lstrip_fence]
  have hstart : pyStartsWith (wrap_fenced tag s) fence_marker = true := by
    rw [hassoc3]
    exact pyStartsWith_fence _
  have hfind : pyFind '\n' (wrap_fenced tag s)
      = some ((fence_marker ++ tag).length) := by
    have hnot : '\n' ∉ fence_marker ++ tag := by
      intro hm
      rcases List.mem_append.mp hm with hm | hm
      · simp [fence_marker] at hm
      · exact htag hm
    rw [hassoc]
    exact pyFind_marker _ _ _ hnot
  have hdrop : (wrap_fenced tag s).drop ((fence_marker ++ tag).length + 1)
      = s ++ '\n' :: fence_marker := by
    rw [hassoc]
    exact drop_after_marker _ _ _
  simp only [strip_code_fences, h0, hstart, hfind, hdrop, pyEndsWith_fence,
             pyDropRight_fence, pyStrip_newline, hs, if_true]

/-- C7 witness: stripping a `sql`-tagged fenced `SELECT 1` recovers
`SELECT 1`. -/
theorem strip_code_fences_roundtrip_witness :
    strip_code_fences (wrap_fenced "sql".toList "SELECT 1".toList)
      = "SELECT 1".toList :=
  strip_code_fences_roundtrip "sql".toList "SELECT 1".toList (by decide)
    (by decide)
